import Mathlib

/-!
Verification of the lathe predictive-maintenance backend's aggregation
pipeline (fastapi_backend.py) and of the synthetic health-score model
(mongodb_data_generator.py).  All numeric values are modelled as exact
rationals; pandas column semantics (a column exists iff at least one
record carries the field, and numeric reductions skip missing entries)
are made explicit through `Option` fields and `filterMap`.
-/

namespace Lathe

/-- Round-half-to-even on rationals: the rounding used by Python's
builtin `round` (idealised over exact rationals rather than binary
floats, which are out of scope). -/
def roundHalfEven (q : ℚ) : ℤ :=
  let f : ℤ := ⌊q⌋
  let r : ℚ := q - f
  if r < 1 / 2 then f
  else if 1 / 2 < r then f + 1
  else if f % 2 = 0 then f else f + 1

/-- Python `round(q, n)`: round `q` to `n` decimal places, ties to even. -/
def roundTo (n : ℕ) (q : ℚ) : ℚ := (roundHalfEven (q * 10 ^ n) : ℚ) / 10 ^ n

/-- One stored document of a `lathe_m{i}` collection.  The five sensor
channels, the product type, the failure flag and the health score are
always written by the generator; `Vibration` and `Uptime` are modelled
as per-record optional so that the backend's `if col in df.columns`
guards are meaningful. -/
structure SensorRecord where
  airTemperature : ℚ
  processTemperature : ℚ
  rotationalSpeed : ℚ
  torque : ℚ
  toolWear : ℚ
  vibration : Option ℚ
  productType : String
  failure : Bool
  healthScore : ℚ
  uptime : Option ℚ
deriving DecidableEq, Repr

/-- Arithmetic mean `sum/len` of a list of rationals (`Series.mean`
over the present entries; `0` on `[]` since `0/0 = 0` in `ℚ`, a case
the guarded endpoints never reach). -/
def meanQ (l : List ℚ) : ℚ := l.sum / l.length

/-- The status classifier shared by `get_all_lathes` and
`get_lathe_details`:
`if avg_health >= 80: "Operational" elif avg_health >= 60: "Warning"
else: "Failure"`. -/
def statusOf (h : ℚ) : String :=
  if 80 ≤ h then "Operational" else if 60 ≤ h then "Warning" else "Failure"

/-- Backend `avg_uptime = df["Uptime"].mean() if "Uptime" in df.columns else 0`.
The column exists iff some record carries the field; `.mean()` skips
missing entries. -/
def avgUptime (rs : List SensorRecord) : ℚ :=
  let present := rs.filterMap (fun r => r.uptime)
  if present = [] then 0 else meanQ present

/-- Backend `vibration = round(df["Vibration"].mean(), 1) if "Vibration" in
df.columns else None` from `get_lathe_details`. -/
def vibrationField (rs : List SensorRecord) : Option ℚ :=
  let present := rs.filterMap (fun r => r.vibration)
  if present = [] then none else some (roundTo 1 (meanQ present))

/-- pandas `df["Type"].unique()`: the distinct product types in
first-appearance order. -/
def uniqueTypes (rs : List SensorRecord) : List String :=
  rs.foldl (fun acc r => if r.productType ∈ acc then acc else acc ++ [r.productType]) []

/-- pandas `df[df["Type"] == t]`: the sub-frame of one product type. -/
def ofType (rs : List SensorRecord) (t : String) : List SensorRecord :=
  rs.filter (fun r => r.productType = t)

/-- pandas `df["Type"].value_counts().to_dict()`: product type → occurrence
count.  (pandas lists the keys by descending count; no claim and no
consumer reads the key order, so keys appear here in first-appearance
order.) -/
def typeCounts (rs : List SensorRecord) : List (String × ℕ) :=
  (uniqueTypes rs).map (fun t => (t, (ofType rs t).length))

/-- The document store: machine id `i` ↦ full history of collection
`lathe_m{i}` sorted by timestamp descending, or `none` when the
collection is absent from `db.list_collection_names()`. -/
def DB := ℤ → Option (List SensorRecord)

/-- Response model `LatheSummary`. -/
structure LatheSummary where
  lathe_id : ℤ
  name : String
  health_score : ℚ
  uptime : ℚ
  status : String
deriving DecidableEq, Repr

/-- The body of `get_all_lathes`' loop for one machine id: fetch the
most recent 50 records and, when any exist, build the summary;
otherwise contribute nothing. -/
def summarize (db : DB) (i : ℤ) : Option LatheSummary :=
  match db i with
  | none => none
  | some all =>
    let data := all.take 50
    if data = [] then none
    else
      let avg_health := meanQ (data.map (fun r => r.healthScore))
      some { lathe_id := i
             name := "Lathe M" ++ toString i
             health_score := roundTo 1 avg_health
             uptime := roundTo 1 (avgUptime data)
             status := statusOf avg_health }

/-- Endpoint `GET /lathes`: loops `i in range(1, 5)`, appending a summary per
machine that has data; the function body contains no raise path. -/
def get_all_lathes (db : DB) : Except ℕ (List LatheSummary) :=
  .ok (([1, 2, 3, 4] : List ℤ).filterMap (summarize db))

/-- Response model `LatheDetails`.  `vibration` is declared
`Optional[float] = None`, so the field is always present in the
serialized response (as `null` when `None`). -/
structure LatheDetails where
  lathe_id : ℤ
  name : String
  health_score : ℚ
  uptime : ℚ
  status : String
  air_temperature : ℚ
  process_temperature : ℚ
  rotational_speed : ℚ
  torque : ℚ
  tool_wear : ℚ
  vibration : Option ℚ
  failure_count : ℕ
  product_types : List (String × ℕ)
deriving DecidableEq, Repr

/-- Endpoint `GET /lathes/{lathe_id}`: 404 when the collection is missing or the
most-recent-100 window is empty; otherwise the aggregated detail. -/
def get_lathe_details (db : DB) (lathe_id : ℤ) : Except ℕ LatheDetails :=
  match db lathe_id with
  | none => .error 404
  | some all =>
    let data := all.take 100
    if data = [] then .error 404
    else
      let avg_health := meanQ (data.map (fun r => r.healthScore))
      .ok { lathe_id := lathe_id
            name := "Lathe M" ++ toString lathe_id
            health_score := roundTo 1 avg_health
            uptime := roundTo 1 (avgUptime data)
            status := statusOf avg_health
            air_temperature := roundTo 1 (meanQ (data.map (fun r => r.airTemperature)))
            process_temperature := roundTo 1 (meanQ (data.map (fun r => r.processTemperature)))
            rotational_speed := roundTo 1 (meanQ (data.map (fun r => r.rotationalSpeed)))
            torque := roundTo 1 (meanQ (data.map (fun r => r.torque)))
            tool_wear := roundTo 1 (meanQ (data.map (fun r => r.toolWear)))
            vibration := vibrationField data
            failure_count := data.countP (fun r => r.failure)
            product_types := typeCounts data }

/-- One `stats` entry of `get_lathe_sensor_data`:
`min/max/avg` of a channel's value list, each rounded to 2 decimals
(`round(min(values), 2)` etc., `avg = round(sum(values)/len(values), 2)`). -/
structure ChannelStats where
  min : ℚ
  max : ℚ
  avg : ℚ
deriving DecidableEq, Repr

/-- Python's builtin `min` over a list: fold of the binary minimum from
the head (`0` on `[]`, where Python would raise; never reached by the
guarded endpoint). -/
def listMin : List ℚ → ℚ
  | [] => 0
  | x :: xs => xs.foldl Min.min x

/-- Python's builtin `max` over a list, as `listMin`. -/
def listMax : List ℚ → ℚ
  | [] => 0
  | x :: xs => xs.foldl Max.max x

/-- The per-channel statistics of `get_lathe_sensor_data`. -/
def channelStats (l : List ℚ) : ChannelStats :=
  { min := roundTo 2 (listMin l)
    max := roundTo 2 (listMax l)
    avg := roundTo 2 (l.sum / l.length) }

/-- The `sensor_data` mapping: the five mandatory channels, plus
`vibration` exactly when the column exists (some record carries it;
entries missing from individual records are skipped, as pandas' numeric
reductions do). -/
def sensorChannels (rs : List SensorRecord) : List (String × List ℚ) :=
  [("air_temperature", rs.map (fun r => r.airTemperature)),
   ("process_temperature", rs.map (fun r => r.processTemperature)),
   ("rotational_speed", rs.map (fun r => r.rotationalSpeed)),
   ("torque", rs.map (fun r => r.torque)),
   ("tool_wear", rs.map (fun r => r.toolWear))] ++
  (if rs.filterMap (fun r => r.vibration) = [] then []
   else [("vibration", rs.filterMap (fun r => r.vibration))])

/-- Response shape of `GET /lathes/{lathe_id}/sensor-data`. -/
structure SensorDataResult where
  lathe_id : ℤ
  name : String
  sensor_data : List (String × List ℚ)
  stats : List (String × ChannelStats)
deriving DecidableEq, Repr

/-- Endpoint `GET /lathes/{lathe_id}/sensor-data`: 404 when the collection is
missing or the most-recent-100 window is empty; otherwise the raw value
lists and their statistics. -/
def get_lathe_sensor_data (db : DB) (lathe_id : ℤ) : Except ℕ SensorDataResult :=
  match db lathe_id with
  | none => .error 404
  | some all =>
    let data := all.take 100
    if data = [] then .error 404
    else
      let sd := sensorChannels data
      .ok { lathe_id := lathe_id
            name := "Lathe M" ++ toString lathe_id
            sensor_data := sd
            stats := sd.map (fun p => (p.1, channelStats p.2)) }

/-- One `product_quality` entry of `get_lathe_product_analysis`. -/
structure QualityEntry where
  count : ℕ
  failure_rate : ℚ
  avg_health_score : ℚ
deriving DecidableEq, Repr

/-- One `params_by_type` entry of `get_lathe_product_analysis`. -/
structure ParamsEntry where
  air_temperature : ℚ
  process_temperature : ℚ
  rotational_speed : ℚ
  torque : ℚ
  tool_wear : ℚ
deriving DecidableEq, Repr

/-- Response shape of `GET /lathes/{lathe_id}/product-analysis`. -/
structure ProductAnalysis where
  lathe_id : ℤ
  name : String
  product_types : List (String × ℕ)
  product_quality : List (String × QualityEntry)
  params_by_type : List (String × ParamsEntry)
deriving DecidableEq, Repr

/-- The numeric `Failure` flag of a record as stored (0/1 integer). -/
def failInd (r : SensorRecord) : ℚ := if r.failure then 1 else 0

/-- The `product_quality` entry for one type:
`count = len(type_df)`,
`failure_rate = round(type_df["Failure"].mean() * 100, 2)`,
`avg_health_score = round(type_df["Health score"].mean(), 2)`. -/
def qualityFor (rs : List SensorRecord) (t : String) : QualityEntry :=
  let typeRecs := ofType rs t
  { count := typeRecs.length
    failure_rate := roundTo 2 (meanQ (typeRecs.map failInd) * 100)
    avg_health_score := roundTo 2 (meanQ (typeRecs.map (fun r => r.healthScore))) }

/-- The `params_by_type` entry for one type: per-channel means rounded
to 2 decimals. -/
def paramsFor (rs : List SensorRecord) (t : String) : ParamsEntry :=
  let typeRecs := ofType rs t
  { air_temperature := roundTo 2 (meanQ (typeRecs.map (fun r => r.airTemperature)))
    process_temperature := roundTo 2 (meanQ (typeRecs.map (fun r => r.processTemperature)))
    rotational_speed := roundTo 2 (meanQ (typeRecs.map (fun r => r.rotationalSpeed)))
    torque := roundTo 2 (meanQ (typeRecs.map (fun r => r.torque)))
    tool_wear := roundTo 2 (meanQ (typeRecs.map (fun r => r.toolWear))) }

/-- Endpoint `GET /lathes/{lathe_id}/product-analysis`: fetches the FULL history
(no window).  Note the code raises a 404 when the history is empty
(`if not data: raise HTTPException(404, ...)`), exactly like the
windowed endpoints. -/
def get_lathe_product_analysis (db : DB) (lathe_id : ℤ) : Except ℕ ProductAnalysis :=
  match db lathe_id with
  | none => .error 404
  | some data =>
    if data = [] then .error 404
    else
      .ok { lathe_id := lathe_id
            name := "Lathe M" ++ toString lathe_id
            product_types := typeCounts data
            product_quality := (uniqueTypes data).map (fun t => (t, qualityFor data t))
            params_by_type := (uniqueTypes data).map (fun t => (t, paramsFor data t)) }

/-- Data-dependent nominal constants of the generator
(`nominal = {speed: mean, torque: mean, wear_max: max, temp_shift: 10}`;
`temp_shift` is the fixed constant 10 and is inlined below). -/
structure Nominal where
  speed : ℚ
  torque : ℚ
  wearMax : ℚ
deriving DecidableEq, Repr

/-- pandas `Series.clip(0, 1)` on one value. -/
def clip01 (x : ℚ) : ℚ := min (max x 0) 1

/-- The raw channels of one row entering `enrich`. -/
structure RawReading where
  airTemperature : ℚ
  rotationalSpeed : ℚ
  torque : ℚ
  toolWear : ℚ
deriving DecidableEq, Repr

/-- Generator `h_temp = 1 - (abs(air - 300) / temp_shift).clip(0, 1)` with
`temp_shift = 10`. -/
def hTemp (r : RawReading) : ℚ := 1 - clip01 (|r.airTemperature - 300| / 10)

/-- Generator `h_speed = (speed / nominal_speed).clip(0, 1)`. -/
def hSpeed (nom : Nominal) (r : RawReading) : ℚ := clip01 (r.rotationalSpeed / nom.speed)

/-- Generator `h_torque = (torque / nominal_torque).clip(0, 1)`. -/
def hTorque (nom : Nominal) (r : RawReading) : ℚ := clip01 (r.torque / nom.torque)

/-- Generator `h_wear = (1 - wear / wear_max).clip(0, 1)`. -/
def hWear (nom : Nominal) (r : RawReading) : ℚ := clip01 (1 - r.toolWear / nom.wearMax)

/-- Generator `Health score = 100 * (0.2*h_temp + 0.25*h_speed + 0.25*h_torque +
0.3*h_wear)` from `enrich` in the data generator. -/
def healthScoreGen (nom : Nominal) (r : RawReading) : ℚ :=
  100 * (0.2 * hTemp r + 0.25 * hSpeed nom r + 0.25 * hTorque nom r + 0.3 * hWear nom r)

/-! Concrete fixtures for witness and counterexample theorems. -/

/-- A healthy record of type "L" that carries no `Vibration` field. -/
def rec0 : SensorRecord :=
  { airTemperature := 300, processTemperature := 310, rotationalSpeed := 1500,
    torque := 40, toolWear := 10, vibration := none, productType := "L",
    failure := false, healthScore := 90, uptime := some 95 }

/-- A record carrying neither `Uptime` nor `Vibration`. -/
def recNoUp : SensorRecord :=
  { airTemperature := 301, processTemperature := 311, rotationalSpeed := 1400,
    torque := 42, toolWear := 20, vibration := none, productType := "M",
    failure := true, healthScore := 70, uptime := none }

/-- A record whose health score 79.96 sits just below the Operational
threshold but rounds up to 80.0 at one decimal. -/
def recBorder : SensorRecord :=
  { airTemperature := 300, processTemperature := 310, rotationalSpeed := 1500,
    torque := 40, toolWear := 10, vibration := none, productType := "L",
    failure := false, healthScore := 79.96, uptime := some 90 }

/-- A store where collection `lathe_m1` exists but holds no documents. -/
def dbEmpty1 : DB := fun i => if i = 1 then some [] else none

/-- A store whose machine 1 has one record without a vibration field. -/
def dbNoVib : DB := fun i => if i = 1 then some [rec0] else none

/-- A store whose machine 1 has the single borderline record. -/
def dbBorder : DB := fun i => if i = 1 then some [recBorder] else none

/-! Helper lemmas. -/

/-- A left fold of `min` is bounded by its seed and by every element. -/
theorem foldl_min_le (xs : List ℚ) (a : ℚ) :
    xs.foldl Min.min a ≤ a ∧ ∀ y ∈ xs, xs.foldl Min.min a ≤ y := by
  induction xs generalizing a with
  | nil => exact ⟨le_refl a, by simp⟩
  | cons y ys ih =>
    have h := ih (min a y)
    simp only [List.foldl_cons]
    refine ⟨h.1.trans (min_le_left a y), ?_⟩
    intro z hz
    rcases List.mem_cons.mp hz with hz | hz
    · exact hz ▸ h.1.trans (min_le_right a y)
    · exact h.2 z hz

/-- A left fold of `min` is its seed or one of the elements. -/
theorem foldl_min_mem (xs : List ℚ) (a : ℚ) :
    xs.foldl Min.min a = a ∨ xs.foldl Min.min a ∈ xs := by
  induction xs generalizing a with
  | nil => exact Or.inl rfl
  | cons y ys ih =>
    simp only [List.foldl_cons]
    rcases ih (min a y) with h | h
    · rcases min_choice a y with hc | hc
      · exact Or.inl (h.trans hc)
      · exact Or.inr (List.mem_cons.mpr (Or.inl (h.trans hc)))
    · exact Or.inr (List.mem_cons.mpr (Or.inr h))

/-- A left fold of `max` bounds its seed and every element. -/
theorem foldl_max_ge (xs : List ℚ) (a : ℚ) :
    a ≤ xs.foldl Max.max a ∧ ∀ y ∈ xs, y ≤ xs.foldl Max.max a := by
  induction xs generalizing a with
  | nil => exact ⟨le_refl a, by simp⟩
  | cons y ys ih =>
    have h := ih (max a y)
    simp only [List.foldl_cons]
    refine ⟨(le_max_left a y).trans h.1, ?_⟩
    intro z hz
    rcases List.mem_cons.mp hz with hz | hz
    · exact hz ▸ (le_max_right a y).trans h.1
    · exact h.2 z hz

/-- A left fold of `max` is its seed or one of the elements. -/
theorem foldl_max_mem (xs : List ℚ) (a : ℚ) :
    xs.foldl Max.max a = a ∨ xs.foldl Max.max a ∈ xs := by
  induction xs generalizing a with
  | nil => exact Or.inl rfl
  | cons y ys ih =>
    simp only [List.foldl_cons]
    rcases ih (max a y) with h | h
    · rcases max_choice a y with hc | hc
      · exact Or.inl (h.trans hc)
      · exact Or.inr (List.mem_cons.mpr (Or.inl (h.trans hc)))
    · exact Or.inr (List.mem_cons.mpr (Or.inr h))

/-- On a non-empty list `listMin` is an element. -/
theorem listMin_mem {l : List ℚ} (h : l ≠ []) : listMin l ∈ l := by
  cases l with
  | nil => exact absurd rfl h
  | cons x xs =>
    rcases foldl_min_mem xs x with h' | h'
    · exact List.mem_cons.mpr (Or.inl h')
    · exact List.mem_cons.mpr (Or.inr h')

/-- `listMin` is a lower bound of the list. -/
theorem listMin_le {l : List ℚ} : ∀ y ∈ l, listMin l ≤ y := by
  cases l with
  | nil => simp
  | cons x xs =>
    intro y hy
    rcases List.mem_cons.mp hy with hy | hy
    · exact hy ▸ (foldl_min_le xs x).1
    · exact (foldl_min_le xs x).2 y hy

/-- On a non-empty list `listMax` is an element. -/
theorem listMax_mem {l : List ℚ} (h : l ≠ []) : listMax l ∈ l := by
  cases l with
  | nil => exact absurd rfl h
  | cons x xs =>
    rcases foldl_max_mem xs x with h' | h'
    · exact List.mem_cons.mpr (Or.inl h')
    · exact List.mem_cons.mpr (Or.inr h')

/-- `listMax` is an upper bound of the list. -/
theorem listMax_ge {l : List ℚ} : ∀ y ∈ l, y ≤ listMax l := by
  cases l with
  | nil => simp
  | cons x xs =>
    intro y hy
    rcases List.mem_cons.mp hy with hy | hy
    · exact hy ▸ (foldl_max_ge xs x).1
    · exact (foldl_max_ge xs x).2 y hy

/-- `listMin` is invariant under permutation of the list. -/
theorem listMin_perm {l l' : List ℚ} (hp : l.Perm l') : listMin l = listMin l' := by
  cases l with
  | nil => rw [hp.symm.eq_nil]
  | cons x xs =>
    have hne : (x :: xs) ≠ ([] : List ℚ) := by simp
    have hne' : l' ≠ [] := by
      intro hc
      subst hc
      exact hne hp.eq_nil
    exact le_antisymm
      (listMin_le _ (hp.mem_iff.mpr (listMin_mem hne')))
      (listMin_le _ (hp.mem_iff.mp (listMin_mem hne)))

/-- `listMax` is invariant under permutation of the list. -/
theorem listMax_perm {l l' : List ℚ} (hp : l.Perm l') : listMax l = listMax l' := by
  cases l with
  | nil => rw [hp.symm.eq_nil]
  | cons x xs =>
    have hne : (x :: xs) ≠ ([] : List ℚ) := by simp
    have hne' : l' ≠ [] := by
      intro hc
      subst hc
      exact hne hp.eq_nil
    exact le_antisymm
      (listMax_ge _ (hp.mem_iff.mp (listMax_mem hne)))
      (listMax_ge _ (hp.mem_iff.mpr (listMax_mem hne')))

/-- The arithmetic mean is invariant under permutation. -/
theorem meanQ_perm {l l' : List ℚ} (hp : l.Perm l') : meanQ l = meanQ l' := by
  unfold meanQ
  rw [hp.sum_eq, hp.length_eq]

/-- Per-channel statistics are invariant under permutation. -/
theorem channelStats_perm {l l' : List ℚ} (hp : l.Perm l') :
    channelStats l = channelStats l' := by
  unfold channelStats
  rw [listMin_perm hp, listMax_perm hp, hp.sum_eq, hp.length_eq]

/-- Looking a key up in an association list built over a key list finds
the value of the building function at that key. -/
theorem lookup_map_self {β : Type} (f : String → β) :
    ∀ (ks : List String) (t : String), t ∈ ks →
      (ks.map (fun k => (k, f k))).lookup t = some (f t)
  | [], t, ht => absurd ht (List.not_mem_nil t)
  | k :: ks, t, ht => by
    simp only [List.map_cons, List.lookup]
    by_cases h : t = k
    · subst h
      simp
    · rw [beq_false_of_ne h]
      exact lookup_map_self f ks t (by
        rcases List.mem_cons.mp ht with h' | h'
        · exact absurd h' h
        · exact h')

/-- The sum of the stored 0/1 failure flags is the count of failed
records. -/
theorem sum_failInd (l : List SensorRecord) :
    (l.map failInd).sum = (l.countP (fun r => r.failure) : ℚ) := by
  induction l with
  | nil => simp
  | cons r rs ih =>
    by_cases h : r.failure
    · simp [failInd, List.countP_cons, h, ih]
      ring
    · simp [failInd, List.countP_cons, h, ih]

/-- Projecting the keys out of an association list built over a key
list gives back the key list. -/
theorem map_fst_pair {β : Type} (f : String → β) :
    ∀ ks : List String, (ks.map (fun k => (k, f k))).map Prod.fst = ks := by
  intro ks
  induction ks with
  | nil => rfl
  | cons k ks ih => simp [ih]

/-- A summary produced by the loop body carries the id of its machine. -/
theorem summarize_lathe_id {db : DB} {i : ℤ} {s : LatheSummary}
    (h : summarize db i = some s) : s.lathe_id = i := by
  unfold summarize at h
  rcases hdb : db i with _ | all
  · rw [hdb] at h
    cases h
  · rw [hdb] at h
    by_cases he : all.take 50 = []
    · simp only [he, if_pos] at h
      cases h
    · simp only [if_neg he] at h
      injection h with h'
      rw [← h']

/-- A missing collection or an empty history contributes no summary. -/
theorem summarize_eq_none {db : DB} {i : ℤ}
    (h : db i = none ∨ db i = some []) : summarize db i = none := by
  rcases h with h | h <;> simp [summarize, h]

/-- On a non-empty window the loop body of `get_all_lathes` produces
exactly the summary computed from the window. -/
theorem summarize_ok (db : DB) (i : ℤ) (all : List SensorRecord)
    (h : db i = some all) (hne : all.take 50 ≠ []) :
    summarize db i = some
      { lathe_id := i
        name := "Lathe M" ++ toString i
        health_score := roundTo 1 (meanQ ((all.take 50).map (fun r => r.healthScore)))
        uptime := roundTo 1 (avgUptime (all.take 50))
        status := statusOf (meanQ ((all.take 50).map (fun r => r.healthScore))) } := by
  simp only [summarize, h]
  rw [if_neg hne]

/-- On a non-empty window the detail endpoint returns exactly the
record computed from the window. -/
theorem get_lathe_details_ok (db : DB) (i : ℤ) (all : List SensorRecord)
    (h : db i = some all) (hne : all.take 100 ≠ []) :
    get_lathe_details db i = .ok
      { lathe_id := i
        name := "Lathe M" ++ toString i
        health_score := roundTo 1 (meanQ ((all.take 100).map (fun r => r.healthScore)))
        uptime := roundTo 1 (avgUptime (all.take 100))
        status := statusOf (meanQ ((all.take 100).map (fun r => r.healthScore)))
        air_temperature := roundTo 1 (meanQ ((all.take 100).map (fun r => r.airTemperature)))
        process_temperature := roundTo 1 (meanQ ((all.take 100).map (fun r => r.processTemperature)))
        rotational_speed := roundTo 1 (meanQ ((all.take 100).map (fun r => r.rotationalSpeed)))
        torque := roundTo 1 (meanQ ((all.take 100).map (fun r => r.torque)))
        tool_wear := roundTo 1 (meanQ ((all.take 100).map (fun r => r.toolWear)))
        vibration := vibrationField (all.take 100)
        failure_count := (all.take 100).countP (fun r => r.failure)
        product_types := typeCounts (all.take 100) } := by
  simp only [get_lathe_details, h]
  rw [if_neg hne]

/-- On a non-empty window the sensor-data endpoint returns exactly the
channel lists and statistics computed from the window. -/
theorem get_lathe_sensor_data_ok (db : DB) (i : ℤ) (all : List SensorRecord)
    (h : db i = some all) (hne : all.take 100 ≠ []) :
    get_lathe_sensor_data db i = .ok
      { lathe_id := i
        name := "Lathe M" ++ toString i
        sensor_data := sensorChannels (all.take 100)
        stats := (sensorChannels (all.take 100)).map
          (fun p => (p.1, channelStats p.2)) } := by
  simp only [get_lathe_sensor_data, h]
  rw [if_neg hne]

end Lathe

namespace Lathe

/-- C1: the status classifier returns "Operational" iff `h >= 80`,
"Warning" iff `60 <= h < 80` and "Failure" iff `h < 60`; the boundary
inputs 80 and 60 land in the higher bucket and 79.9 and 59.9 in the
lower one. -/
theorem c1_status_classifier (h : ℚ) :
    (statusOf h = "Operational" ↔ 80 ≤ h) ∧
    (statusOf h = "Warning" ↔ 60 ≤ h ∧ h < 80) ∧
    (statusOf h = "Failure" ↔ h < 60) ∧
    statusOf 80 = "Operational" ∧ statusOf 60 = "Warning" ∧
    statusOf 79.9 = "Warning" ∧ statusOf 59.9 = "Failure" := by
  refine ⟨?_, ?_, ?_, ?_, ?_, ?_, ?_⟩
  · unfold statusOf
    split_ifs with h1 h2 <;> simp_all
  · unfold statusOf
    split_ifs with h1 h2 <;> simp_all
  · unfold statusOf
    split_ifs with h1 h2 <;> simp_all
    linarith
  · norm_num [statusOf]
  · norm_num [statusOf]
  · norm_num [statusOf]
  · norm_num [statusOf]

/-- C2 counterexample: with an existing but empty collection, the
product-analysis operation raises a 404 not-found outcome, refuting the
claim that it returns empty mappings without signalling an error. -/
theorem c2_counterexample :
    get_lathe_product_analysis dbEmpty1 1 = .error 404 := rfl

/-- C2 amended: whenever the record source exists but its full-history
record set is empty, the product-analysis operation signals a not-found
outcome (exactly like the windowed endpoints), instead of returning
empty mappings. -/
theorem c2_empty_history_not_found (db : DB) (i : ℤ) (h : db i = some []) :
    get_lathe_product_analysis db i = .error 404 := by
  unfold get_lathe_product_analysis
  rw [h]
  rfl

/-- C2 witness: the amended behaviour at the concrete empty store. -/
theorem c2_empty_history_not_found_witness :
    get_lathe_product_analysis dbEmpty1 1 = .error 404 :=
  c2_empty_history_not_found dbEmpty1 1 rfl

/-- C3: when the fetched window is empty, the detail and sensor-stats
operations both signal a 404 not-found outcome; no zero-filled summary
is produced. -/
theorem c3_empty_window_not_found (db : DB) (i : ℤ) (all : List SensorRecord)
    (h : db i = some all) (hw : all.take 100 = []) :
    get_lathe_details db i = .error 404 ∧
    get_lathe_sensor_data db i = .error 404 := by
  unfold get_lathe_details get_lathe_sensor_data
  rw [h]
  exact ⟨by simp [hw], by simp [hw]⟩

/-- C3 witness: the empty-window behaviour at the concrete empty store. -/
theorem c3_empty_window_not_found_witness :
    get_lathe_details dbEmpty1 1 = .error 404 ∧
    get_lathe_sensor_data dbEmpty1 1 = .error 404 :=
  c3_empty_window_not_found dbEmpty1 1 [] rfl rfl

/-- C4 counterexample: for a window in which no record carries a
vibration value, the detail operation still returns its `vibration`
field — with value `none`, which the response model (declared
`Optional[float] = None`) serializes as JSON `null`.  This refutes the
claim that an entirely-absent channel appears "neither as zero nor as
null" in the detail output. -/
theorem c4_counterexample :
    ∃ d, get_lathe_details dbNoVib 1 = .ok d ∧ d.vibration = none :=
  ⟨_, rfl, rfl⟩

/-- C4 amended: when a channel (vibration) is absent from every record
of a non-empty window, the sensor-stats operation omits it entirely
from both `sensor_data` and `stats`; the detail operation, however,
returns its `vibration` field as `none` (serialized `null`), not as
zero. -/
theorem c4_missing_channel (db : DB) (i : ℤ) (all : List SensorRecord)
    (h : db i = some all) (hne : all.take 100 ≠ [])
    (hv : ∀ r ∈ all.take 100, r.vibration = none) :
    (∃ res, get_lathe_sensor_data db i = .ok res ∧
      res.sensor_data.map Prod.fst =
        ["air_temperature", "process_temperature", "rotational_speed",
         "torque", "tool_wear"] ∧
      res.stats.map Prod.fst =
        ["air_temperature", "process_temperature", "rotational_speed",
         "torque", "tool_wear"]) ∧
    (∃ d, get_lathe_details db i = .ok d ∧ d.vibration = none) := by
  have hfm : (all.take 100).filterMap (fun r => r.vibration) = [] :=
    List.filterMap_eq_nil_iff.mpr hv
  constructor
  · exact ⟨_, get_lathe_sensor_data_ok db i all h hne,
      by simp [sensorChannels, hfm], by simp [sensorChannels, hfm]⟩
  · exact ⟨_, get_lathe_details_ok db i all h hne,
      by simp [vibrationField, hfm]⟩

/-- C4 witness: the amended behaviour at a concrete one-record window
without vibration. -/
theorem c4_missing_channel_witness :
    (∃ res, get_lathe_sensor_data dbNoVib 1 = .ok res ∧
      res.sensor_data.map Prod.fst =
        ["air_temperature", "process_temperature", "rotational_speed",
         "torque", "tool_wear"] ∧
      res.stats.map Prod.fst =
        ["air_temperature", "process_temperature", "rotational_speed",
         "torque", "tool_wear"]) ∧
    (∃ d, get_lathe_details dbNoVib 1 = .ok d ∧ d.vibration = none) :=
  c4_missing_channel dbNoVib 1 [rec0] rfl (by simp) (by decide)

/-- C5: on a non-empty window the aggregated mean uptime is 0 when the
uptime field is absent from every record, and is the arithmetic mean of
the present uptime values otherwise; the other optional channel
(vibration) gets no fabricated default when entirely missing — the
detail field stays `none`. -/
theorem c5_mean_uptime (rs : List SensorRecord) (_hne : rs ≠ []) :
    ((∀ r ∈ rs, r.uptime = none) → avgUptime rs = 0) ∧
    (rs.filterMap (fun r => r.uptime) ≠ [] →
      avgUptime rs = meanQ (rs.filterMap (fun r => r.uptime))) ∧
    ((∀ r ∈ rs, r.vibration = none) → vibrationField rs = none) := by
  refine ⟨fun h => ?_, fun h => ?_, fun h => ?_⟩
  · simp only [avgUptime]
    rw [if_pos (List.filterMap_eq_nil_iff.mpr h)]
  · simp only [avgUptime]
    rw [if_neg h]
  · simp only [vibrationField]
    rw [if_pos (List.filterMap_eq_nil_iff.mpr h)]

/-- C5 witness: the zero default and the absent vibration at a concrete
one-record window without uptime. -/
theorem c5_mean_uptime_witness :
    avgUptime [recNoUp] = 0 ∧ vibrationField [recNoUp] = none := by
  have h := c5_mean_uptime [recNoUp] (by simp)
  exact ⟨h.1 (by decide), h.2.2 (by decide)⟩

/-- C6: on a non-empty full history the product analysis groups records
by product type; for each discovered type it reports the record count,
the failure rate `100 * failed / count` rounded to 2 decimals, the mean
health score rounded to 2 decimals, and the mean of each of the five
numeric channels rounded to 2 decimals. -/
theorem c6_product_breakdown (db : DB) (i : ℤ) (rs : List SensorRecord)
    (h : db i = some rs) (hne : rs ≠ []) :
    ∃ a, get_lathe_product_analysis db i = .ok a ∧
      a.product_types.map Prod.fst = uniqueTypes rs ∧
      a.product_quality.map Prod.fst = uniqueTypes rs ∧
      a.params_by_type.map Prod.fst = uniqueTypes rs ∧
      ∀ t ∈ uniqueTypes rs,
        a.product_types.lookup t = some (ofType rs t).length ∧
        a.product_quality.lookup t = some
          { count := (ofType rs t).length
            failure_rate := roundTo 2
              (100 * ((ofType rs t).countP (fun r => r.failure) : ℚ) /
                ((ofType rs t).length : ℚ))
            avg_health_score := roundTo 2
              (meanQ ((ofType rs t).map (fun r => r.healthScore))) } ∧
        a.params_by_type.lookup t = some
          { air_temperature := roundTo 2 (meanQ ((ofType rs t).map (fun r => r.airTemperature)))
            process_temperature := roundTo 2 (meanQ ((ofType rs t).map (fun r => r.processTemperature)))
            rotational_speed := roundTo 2 (meanQ ((ofType rs t).map (fun r => r.rotationalSpeed)))
            torque := roundTo 2 (meanQ ((ofType rs t).map (fun r => r.torque)))
            tool_wear := roundTo 2 (meanQ ((ofType rs t).map (fun r => r.toolWear))) } := by
  have hok : get_lathe_product_analysis db i = .ok
      { lathe_id := i
        name := "Lathe M" ++ toString i
        product_types := typeCounts rs
        product_quality := (uniqueTypes rs).map (fun t => (t, qualityFor rs t))
        params_by_type := (uniqueTypes rs).map (fun t => (t, paramsFor rs t)) } := by
    simp only [get_lathe_product_analysis, h]
    rw [if_neg hne]
  refine ⟨_, hok, ?_, ?_, ?_, ?_⟩
  · exact map_fst_pair (fun t => (ofType rs t).length) (uniqueTypes rs)
  · exact map_fst_pair (fun t => qualityFor rs t) (uniqueTypes rs)
  · exact map_fst_pair (fun t => paramsFor rs t) (uniqueTypes rs)
  · intro t ht
    refine ⟨?_, ?_, ?_⟩
    · exact lookup_map_self (fun t => (ofType rs t).length) (uniqueTypes rs) t ht
    · rw [lookup_map_self (fun t => qualityFor rs t) (uniqueTypes rs) t ht]
      have harg : meanQ ((ofType rs t).map failInd) * 100 =
          100 * ((ofType rs t).countP (fun r => r.failure) : ℚ) /
            ((ofType rs t).length : ℚ) := by
        unfold meanQ
        rw [sum_failInd, List.length_map]
        ring
      simp only [qualityFor]
      rw [harg]
    · rw [lookup_map_self (fun t => paramsFor rs t) (uniqueTypes rs) t ht]
      rfl

/-- C6 witness: the breakdown at a concrete one-record history of
type "L". -/
theorem c6_product_breakdown_witness :
    ∃ a, get_lathe_product_analysis dbNoVib 1 = .ok a ∧
      a.product_types.lookup "L" = some 1 ∧
      a.product_quality.lookup "L" =
        some { count := 1, failure_rate := 0, avg_health_score := 90 } := by
  obtain ⟨a, ha, _, _, _, hall⟩ :=
    c6_product_breakdown dbNoVib 1 [rec0] rfl (by simp)
  obtain ⟨h1, h2, _⟩ := hall "L" (by decide)
  refine ⟨a, ha, ?_, ?_⟩
  · rw [h1]
    rfl
  · rw [h2]
    norm_num [roundTo, roundHalfEven, meanQ, ofType, rec0]

/-- C7: the window aggregation is order-insensitive — permuting the
records of a window leaves every per-channel min/max/mean statistic,
the mean health score and the derived status unchanged. -/
theorem c7_order_insensitive (rs rs' : List SensorRecord) (hp : rs.Perm rs') :
    channelStats (rs.map (fun r => r.airTemperature)) =
      channelStats (rs'.map (fun r => r.airTemperature)) ∧
    channelStats (rs.map (fun r => r.processTemperature)) =
      channelStats (rs'.map (fun r => r.processTemperature)) ∧
    channelStats (rs.map (fun r => r.rotationalSpeed)) =
      channelStats (rs'.map (fun r => r.rotationalSpeed)) ∧
    channelStats (rs.map (fun r => r.torque)) =
      channelStats (rs'.map (fun r => r.torque)) ∧
    channelStats (rs.map (fun r => r.toolWear)) =
      channelStats (rs'.map (fun r => r.toolWear)) ∧
    channelStats (rs.filterMap (fun r => r.vibration)) =
      channelStats (rs'.filterMap (fun r => r.vibration)) ∧
    meanQ (rs.map (fun r => r.healthScore)) =
      meanQ (rs'.map (fun r => r.healthScore)) ∧
    statusOf (meanQ (rs.map (fun r => r.healthScore))) =
      statusOf (meanQ (rs'.map (fun r => r.healthScore))) :=
  ⟨channelStats_perm (hp.map _), channelStats_perm (hp.map _),
   channelStats_perm (hp.map _), channelStats_perm (hp.map _),
   channelStats_perm (hp.map _), channelStats_perm (hp.filterMap _),
   meanQ_perm (hp.map _), by rw [meanQ_perm (hp.map _)]⟩

/-- C7 witness: order-insensitivity at a concrete two-record window and
its transposition. -/
theorem c7_order_insensitive_witness :
    meanQ ([rec0, recNoUp].map (fun r => r.healthScore)) =
      meanQ ([recNoUp, rec0].map (fun r => r.healthScore)) ∧
    statusOf (meanQ ([rec0, recNoUp].map (fun r => r.healthScore))) =
      statusOf (meanQ ([recNoUp, rec0].map (fun r => r.healthScore))) := by
  have h := c7_order_insensitive [rec0, recNoUp] [recNoUp, rec0]
    (List.Perm.swap recNoUp rec0 [])
  exact ⟨h.2.2.2.2.2.2.1, h.2.2.2.2.2.2.2⟩

/-- C8: the generator's health score equals 100 times the weighted sum
of the four normalized sub-scores (temperature deviation, speed ratio,
torque ratio, inverse tool wear), each lying in [0,1] by clipping, with
weights 0.2/0.25/0.25/0.3; consequently the score lies in [0,100]. -/
theorem c8_health_score_model (nom : Nominal) (r : RawReading) :
    healthScoreGen nom r =
      100 * (0.2 * hTemp r + 0.25 * hSpeed nom r +
        0.25 * hTorque nom r + 0.3 * hWear nom r) ∧
    (0 ≤ hTemp r ∧ hTemp r ≤ 1) ∧
    (0 ≤ hSpeed nom r ∧ hSpeed nom r ≤ 1) ∧
    (0 ≤ hTorque nom r ∧ hTorque nom r ≤ 1) ∧
    (0 ≤ hWear nom r ∧ hWear nom r ≤ 1) ∧
    0 ≤ healthScoreGen nom r ∧ healthScoreGen nom r ≤ 100 := by
  have hc : ∀ x : ℚ, 0 ≤ clip01 x ∧ clip01 x ≤ 1 := fun x =>
    ⟨le_min (le_max_right x 0) zero_le_one, min_le_right _ _⟩
  have h1 := hc (|r.airTemperature - 300| / 10)
  have h2 := hc (r.rotationalSpeed / nom.speed)
  have h3 := hc (r.torque / nom.torque)
  have h4 := hc (1 - r.toolWear / nom.wearMax)
  have hT : 0 ≤ hTemp r ∧ hTemp r ≤ 1 := by
    unfold hTemp
    constructor <;> linarith [h1.1, h1.2]
  have hS : 0 ≤ hSpeed nom r ∧ hSpeed nom r ≤ 1 := h2
  have hQ : 0 ≤ hTorque nom r ∧ hTorque nom r ≤ 1 := h3
  have hW : 0 ≤ hWear nom r ∧ hWear nom r ≤ 1 := h4
  refine ⟨rfl, hT, hS, hQ, hW, ?_, ?_⟩ <;>
    · unfold healthScoreGen
      nlinarith [hT.1, hT.2, hS.1, hS.2, hQ.1, hQ.2, hW.1, hW.2]

/-- C9: the summary and detail operations classify the status from the
UNROUNDED mean health score while reporting `health_score` rounded to
one decimal; hence the borderline window with mean 79.96 reports
`health_score = 80.0` together with status "Warning". -/
theorem c9_status_from_unrounded_mean :
    (∀ (db : DB) (i : ℤ) (all : List SensorRecord),
      db i = some all → all.take 100 ≠ [] →
      ∃ d, get_lathe_details db i = .ok d ∧
        d.status = statusOf (meanQ ((all.take 100).map (fun r => r.healthScore))) ∧
        d.health_score = roundTo 1 (meanQ ((all.take 100).map (fun r => r.healthScore)))) ∧
    (∀ (db : DB) (i : ℤ) (all : List SensorRecord),
      db i = some all → all.take 50 ≠ [] →
      ∃ s, summarize db i = some s ∧
        s.status = statusOf (meanQ ((all.take 50).map (fun r => r.healthScore))) ∧
        s.health_score = roundTo 1 (meanQ ((all.take 50).map (fun r => r.healthScore)))) ∧
    (∃ d, get_lathe_details dbBorder 1 = .ok d ∧
      d.health_score = 80 ∧ d.status = "Warning") := by
  refine ⟨?_, ?_, ?_⟩
  · intro db i all h hne
    exact ⟨_, get_lathe_details_ok db i all h hne, rfl, rfl⟩
  · intro db i all h hne
    exact ⟨_, summarize_ok db i all h hne, rfl, rfl⟩
  · refine ⟨_, get_lathe_details_ok dbBorder 1 [recBorder] rfl (by simp), ?_, ?_⟩
    · show roundTo 1 (meanQ ([recBorder].map (fun r => r.healthScore))) = 80
      norm_num [roundTo, roundHalfEven, meanQ, recBorder]
    · show statusOf (meanQ ([recBorder].map (fun r => r.healthScore))) = "Warning"
      norm_num [statusOf, meanQ, recBorder]

/-- C9 witness: the borderline conjunct applied as is. -/
theorem c9_status_from_unrounded_mean_witness :
    ∃ d, get_lathe_details dbBorder 1 = .ok d ∧
      d.health_score = 80 ∧ d.status = "Warning" :=
  c9_status_from_unrounded_mean.2.2

/-- C10: the fleet summary never signals an error: it considers only
machine ids 1 through 4, silently omits any machine whose collection is
missing or whose most-recent-50 window is empty, and returns the empty
list (not a not-found outcome) for an empty fleet. -/
theorem c10_summary_never_errors (db : DB) :
    ∃ l, get_all_lathes db = .ok l ∧
      (∀ s ∈ l, s.lathe_id = 1 ∨ s.lathe_id = 2 ∨ s.lathe_id = 3 ∨ s.lathe_id = 4) ∧
      (∀ i : ℤ, (db i = none ∨ db i = some []) → ∀ s ∈ l, s.lathe_id ≠ i) ∧
      ((∀ i : ℤ, db i = none ∨ db i = some []) → l = []) := by
  refine ⟨_, rfl, ?_, ?_, ?_⟩
  · intro s hs
    obtain ⟨i, hi, hsum⟩ := List.mem_filterMap.mp hs
    have hid := summarize_lathe_id hsum
    simp only [List.mem_cons, List.not_mem_nil, or_false] at hi
    rcases hi with h | h | h | h <;> subst h <;> simp [hid]
  · intro i hdbi s hs hcon
    obtain ⟨j, _, hsum⟩ := List.mem_filterMap.mp hs
    have hid := summarize_lathe_id hsum
    rw [hid] at hcon
    subst hcon
    rw [summarize_eq_none hdbi] at hsum
    cases hsum
  · intro hall
    refine List.filterMap_eq_nil_iff.mpr ?_
    intro i _
    exact summarize_eq_none (hall i)

/-- C10 witness: the empty fleet yields `ok []`. -/
theorem c10_summary_never_errors_witness :
    get_all_lathes (fun _ => none) = .ok [] := by
  obtain ⟨l, hl, _, _, hemp⟩ := c10_summary_never_errors (fun _ => none)
  rw [hl, hemp (fun i => Or.inl rfl)]

end Lathe
